import Mathlib

/-!
Shallow embedding of the URL reputation scanning pipeline of
`src/security_scanners.py` (functions `get_vt_url_id`, `scan_url`,
`scan_url_with_gsb`, `scan_url_with_virustotal`,
`_process_vt_report_verdict`).

Network interactions are modelled by environment values: each HTTP call the
code makes is answered by a constructor of an environment datatype (a
successful response with the fields the code reads, a connection failure, or
an arbitrary other exception).  The Python functions become total Lean
functions from such an environment and the URL to the produced report text;
the sleeps of the polling loop are recorded as a list of delay durations so
that resource-bound claims can be stated.
-/

namespace UrlScan

/-- Membership of `pat` as a contiguous sublist of `l`; embeds the Python
substring test `pat in s` on the character lists of the strings. -/
def hasSubstrList (pat : List Char) : List Char → Bool
  | [] => pat.isEmpty
  | c :: t => pat.isPrefixOf (c :: t) || hasSubstrList pat t

/-- Python `pat in s` for strings. -/
def containsSubstr (s pat : String) : Bool :=
  hasSubstrList pat.data s.data

/-- Python truthiness test `not x` for an optional string (`None` and the
empty string are falsy). -/
def falsyStr : Option String → Bool
  | none => true
  | some s => s.isEmpty

/-- Worker for `pyTitle`: the boolean says whether the previous character was
alphabetic (cased). -/
def pyTitleGo : Bool → List Char → List Char
  | _, [] => []
  | prevCased, c :: t =>
    if c.isAlpha then
      (if prevCased then c.toLower else c.toUpper) :: pyTitleGo true t
    else
      c :: pyTitleGo false t

/-- Python `str.title()` (for the ASCII threat-type names the code feeds it):
the first letter of every alphabetic run is upper-cased, the rest lower-cased. -/
def pyTitle (s : String) : String :=
  String.mk (pyTitleGo false s.data)

/-- Python `s.replace('_', ' ')` specialised to the single-character pattern
the code uses: every underscore becomes a space. -/
def replaceUnderscores (s : String) : String :=
  String.mk (s.data.map (fun c => if c == '_' then ' ' else c))

/-- Python `str.lower()` for the ASCII-lettered report texts the code feeds
it: each character is lower-cased individually (non-ASCII characters such as
the emoji glyphs are unaffected). -/
def pyLower (s : String) : String := String.mk (s.data.map Char.toLower)

/-- Lexicographic comparison of character lists by code point. -/
def charListLe : List Char → List Char → Bool
  | [], _ => true
  | _ :: _, [] => false
  | a :: as, b :: bs =>
    if a.toNat < b.toNat then true
    else if b.toNat < a.toNat then false
    else charListLe as bs

/-- Python `a <= b` on strings: lexicographic by code point. -/
def strLe (a b : String) : Bool := charListLe a.data b.data

/-- Insertion of a string into a sorted list of strings. -/
def insertSorted (a : String) : List String → List String
  | [] => [a]
  | b :: t => if strLe a b then a :: b :: t else b :: insertSorted a t

/-- Insertion sort on strings (lexicographic by code point, the order Python
`sorted` uses on `str`). -/
def sortStrings : List String → List String
  | [] => []
  | a :: t => insertSorted a (sortStrings t)

/-- Python `sorted(list(set(xs)))` for a list of strings: duplicates removed,
then sorted lexicographically by code point. -/
def sortedSet (xs : List String) : List String :=
  sortStrings xs.eraseDups

/-! ## Google Safe Browsing client (`scan_url_with_gsb`, lines 48-108) -/

/-- Outcome of the single GSB POST request, as seen by the `try` block:
a response (status code, the optional `matches` array of threat-type strings,
and the raw body text used for error details), an `httpx.RequestError`, or
any other exception.  The threat-type strings are the `threatType` fields of
the match objects, in response order. -/
inductive GsbNet where
  | resp (status_code : Nat) («matches» : Option (List String)) (text : String)
  | requestError (e : String)
  | otherError (e : String)

/-- Environment of one `scan_url_with_gsb` call: the value of
`GOOGLE_SAFE_BROWSE_API_KEY` and the network outcome. -/
structure GsbEnv where
  apiKey : Option String
  net : GsbNet

def gsbNoKeyMsg : String :=
  "❌ Error: Google Safe Browsing API key not configured. Cannot scan URL."

def gsbDangerMsg (threatTypes : String) : String :=
  "🚨 **DANGER! This URL is highly malicious!** 🚨\n" ++
  "Detected as: **" ++ threatTypes ++ "** by Google Safe Browsing." ++
  "\n\n🛑 **DO NOT CLICK THIS LINK!**"

def gsbSafeMsg : String :=
  "✅ This URL appears **safe** according to Google Safe Browsing.\n" ++
  "No known malware, phishing, or unwanted software detected."

def gsbInvalidMsg (detail : String) : String :=
  "❌ **Invalid URL for GSB!** Check the link format. (Details: `" ++ detail ++ "`)"

def gsbDeniedMsg (detail : String) : String :=
  "❌ **Access Denied (Google Safe Browsing)!** Check your API key or daily quota. (Details: `" ++ detail ++ "`)"

def gsbEndpointMsg : String :=
  "❌ Error: Invalid API endpoint or URL. Check the Safe Browsing API configuration."

def gsbOtherHttpMsg (status_code : Nat) (detail : String) : String :=
  "❌ An issue occurred with Google Safe Browsing scan (HTTP Error " ++ toString status_code ++ "). " ++
  "Please try again later. (Details: `" ++ detail.take 150 ++ "`...)"

def gsbConnectMsg (e : String) : String :=
  "❌ I couldn\x27t connect to Google Safe Browsing. Check internet. (Error: `" ++ e ++ "`)"

def gsbUnexpectedMsg (e : String) : String :=
  "❌ Unexpected error during GSB scan. (Details: `" ++ e ++ "`)"

/-- Rendering of the matched threat types (line 80 of the source):
deduplicated, sorted, comma-joined, underscores to spaces, title-cased. -/
def gsbThreatTypes (l : List String) : String :=
  pyTitle (replaceUnderscores (String.intercalate ", " (sortedSet l)))

/-- Embedding of `scan_url_with_gsb` (lines 48-108).  `raise_for_status`
raises exactly when the status code is at least 400, which the handler then
maps through the status-code taxonomy. -/
def scan_url_with_gsb (env : GsbEnv) (_url : String) : String :=
  if falsyStr env.apiKey then gsbNoKeyMsg
  else
    match env.net with
    | .requestError e => gsbConnectMsg e
    | .otherError e => gsbUnexpectedMsg e
    | .resp status_code «matches» text =>
      if 400 ≤ status_code then
        if status_code == 400 then gsbInvalidMsg text
        else if status_code == 403 then gsbDeniedMsg text
        else if status_code == 404 then gsbEndpointMsg
        else gsbOtherHttpMsg status_code text
      else
        match «matches» with
        | some l => if l.isEmpty then gsbSafeMsg else gsbDangerMsg (gsbThreatTypes l)
        | none => gsbSafeMsg

example : containsSubstr "abcdef" "cde" = true := by decide
example : containsSubstr "abcdef" "ce" = false := by decide
example : pyTitle "social engineering" = "Social Engineering" := by decide
example : gsbThreatTypes ["SOCIAL_ENGINEERING", "MALWARE", "MALWARE"] = "Malware, Social Engineering" := by decide

/-! ## VirusTotal URL identifier (`get_vt_url_id`, lines 15-18) -/

def VIRUSTOTAL_GUI_BASE_URL : String := "https://www.virustotal.com/gui/url/"

/-- Alphabet of the url-safe base64 variant (`base64.urlsafe_b64encode`). -/
def b64Alphabet : List Char :=
  "ABCDEFGHIJKLMNOPQRSTUVWXYZabcdefghijklmnopqrstuvwxyz0123456789-_".data

def b64Char (n : Nat) : Char := b64Alphabet.getD n 'A'

/-- Url-safe base64 encoding of a byte list (each byte given as a `Nat` below
256), with `=` padding — the semantics of Python `base64.urlsafe_b64encode`. -/
def b64Groups : List Nat → List Char
  | [] => []
  | [a] => [b64Char (a / 4), b64Char (a % 4 * 16), '=', '=']
  | [a, b] => [b64Char (a / 4), b64Char (a % 4 * 16 + b / 16), b64Char (b % 16 * 4), '=']
  | a :: b :: c :: t =>
    b64Char (a / 4) :: b64Char (a % 4 * 16 + b / 16) ::
    b64Char (b % 16 * 4 + c / 64) :: b64Char (c % 64) :: b64Groups t

/-- UTF-8 bytes of a string, as natural numbers (Python `url.encode()`). -/
def strBytes (s : String) : List Nat :=
  (s.data.map (fun c => (String.utf8EncodeChar c).map (fun b => b.toNat))).flatten

/-- Python `str.strip(c)`: removes the character from both ends. -/
def stripChar (c : Char) (l : List Char) : List Char :=
  ((l.dropWhile (fun x => x == c)).reverse.dropWhile (fun x => x == c)).reverse

/-- Embedding of `get_vt_url_id` (lines 15-18): url-safe base64 of the URL
bytes, with the `=` characters stripped. -/
def get_vt_url_id (url : String) : String :=
  String.mk (stripChar '=' (b64Groups (strBytes url)))

/-- Modelled from the spec: the content-derived identifier as §4.2 words it —
"base64url-encoding without padding", i.e. the encoding with the trailing
`=` padding removed (rather than a both-ends strip). -/
def vtUrlIdSpec (url : String) : String :=
  String.mk (((b64Groups (strBytes url)).reverse.dropWhile (fun x => x == '=')).reverse)

example : get_vt_url_id "http://a" = "aHR0cDovL2E" := by decide
example : get_vt_url_id "http://ab" = "aHR0cDovL2Fi" := by decide

/-! ## VirusTotal client (`scan_url_with_virustotal`, lines 110-248) -/

/-- The `last_analysis_stats` JSON object: an association list from count
names to integers, so that absent keys and extra keys are representable.
`dget d k` is Python `d.get(k, 0)`. -/
abbrev StatsDict := List (String × Int)

def dget (d : StatsDict) (k : String) : Int :=
  match d.find? (fun p => p.1 == k) with
  | some p => p.2
  | none => 0

/-- The `data.attributes` object of a VirusTotal response, restricted to the
fields the code reads.  `none` means the key is absent (or `null`). -/
structure VtAttributes where
  last_analysis_stats : Option StatsDict
  status : Option String

/-- Python truthiness of `attributes.get("last_analysis_stats")`: the key
must be present and the dictionary non-empty. -/
def statsTruthy : Option StatsDict → Bool
  | none => false
  | some d => !d.isEmpty

/-- A response to the report / analysis GET endpoints, restricted to the
fields the code reads: status code, presence of a top-level `error` key with
its optional `message`, the `data.attributes` object, and the raw body text
(used in `HTTPStatusError` details). -/
structure VtReportResp where
  status_code : Nat
  error_present : Bool
  error_message : Option String
  attributes : VtAttributes
  text : String

/-- A response to the submission POST endpoint: status code, the optional
`error.code` and `error.message` fields, the optional `data.id`, and the raw
body text. -/
structure VtSubmitResp where
  status_code : Nat
  error_code : Option String
  error_message : Option String
  analysis_id : Option String
  text : String

/-- Outcome of one HTTP call: a response, an `httpx.RequestError`, or any
other exception. -/
inductive NetCall (α : Type) where
  | resp (r : α)
  | requestError (e : String)
  | otherError (e : String)

/-- Environment of one `scan_url_with_virustotal` call: the API key, the
response to the existing-report GET, the response to the submission POST, and
the response to the i-th polling GET (0-based). -/
structure VtEnv where
  apiKey : Option String
  reportCall : NetCall VtReportResp
  submitCall : NetCall VtSubmitResp
  pollCalls : Nat → NetCall VtReportResp

/-- The exceptions the outer `try` of `scan_url_with_virustotal` catches. -/
inductive VtExc where
  | httpStatus (status_code : Nat) (text : String)
  | requestError (e : String)
  | otherError (e : String)

def vtNoKeyMsg : String :=
  "❌ Error: VirusTotal API key not configured for secondary scan."

def vtApiKeyErrMsg : String :=
  "❌ **API Key Error (VT)!** Check your VirusTotal API key."

def vtQuotaMsg : String :=
  "❌ **Access Denied (VT)!** VirusTotal quota exceeded."

def vtInvalidUrlMsg (public_report_url : String) : String :=
  "❌ **Invalid URL Format for VT!**\n" ++
  "VirusTotal couldn\x27t process this. " ++
  "([View details](" ++ public_report_url ++ "))"

def vtCommonUrlMsg (public_report_url : String) : String :=
  "ℹ️ VirusTotal couldn\x27t initiate a new scan for this common URL. " ++
  "Please view its existing report: [View VT Report](" ++ public_report_url ++ ")"

def vtSubmitIssueMsg (error_message : String) : String :=
  "❌ Issue submitting to VirusTotal: `" ++ error_message ++ "`. Try later."

def vtNoAnalysisIdMsg : String :=
  "⚠️ Could not initiate VT scan. No analysis ID. Try again."

def vtErrFetchMsg (error_message : String) : String :=
  "❌ Error fetching VT report: `" ++ error_message ++ "`. Try again."

def vtStillProcessingMsg (status public_report_url : String) : String :=
  "ℹ️ VT scan initiated. Report still processing (" ++ status ++ "). " ++
  "View progress: [Scan Progress](" ++ public_report_url ++ ")"

def vtStillProcessing404Msg (public_report_url : String) : String :=
  "ℹ️ VT scan initiated. Report still processing. " ++
  "View progress: [Scan Progress](" ++ public_report_url ++ ")"

def vtUnexpectedStatusMsg (statusRepr public_report_url : String) : String :=
  "❓ VT report has unexpected status: `" ++ statusRepr ++ "`. " ++
  "[View full report](" ++ public_report_url ++ ")"

def vtTimeoutMsg (public_report_url : String) : String :=
  "ℹ️ VT scan timed out. Report might still be processing. " ++
  "Check later: [VirusTotal Report](" ++ public_report_url ++ ")"

def vtDangerMsg (malicious suspicious : Int) (public_report_url : String) : String :=
  "🚨 **DANGER! This URL is highly suspicious/malicious!** 🚨\n" ++
  "VirusTotal detected **" ++ toString malicious ++ "** malicious and **" ++
  toString suspicious ++ "** suspicious engines." ++
  "\n\n🛑 **DO NOT CLICK THIS LINK!**" ++
  "\n\n[View full report for more details](" ++ public_report_url ++ ")"

def vtSafeMsg (harmless : Int) (public_report_url : String) : String :=
  "✅ This URL appears **safe** based on VirusTotal scan.\n" ++
  "Detected by **" ++ toString harmless ++ "** engines as harmless. No threats found." ++
  "\n\n[View full report](" ++ public_report_url ++ ")"

def vtInconclusiveMsg (undetected : Int) (public_report_url : String) : String :=
  "ℹ️ **VT Scan Inconclusive / No Threats Detected.** 🤔\n" ++
  "VirusTotal did not detect immediate threats (" ++ toString undetected ++
  " spaces reported undetected if applicable). " ++
  "However, **exercise caution**, especially with new or unknown links. " ++
  "\n\n[View details on VirusTotal](" ++ public_report_url ++ ")"

/-- Embedding of `_process_vt_report_verdict` (lines 250-280). -/
def _process_vt_report_verdict (attributes : VtAttributes) (public_report_url : String) : String :=
  let last_analysis_stats := attributes.last_analysis_stats.getD []
  let malicious := dget last_analysis_stats "malicious"
  let suspicious := dget last_analysis_stats "suspicious"
  let harmless := dget last_analysis_stats "harmless"
  let undetected := dget last_analysis_stats "undetected"
  let total_bad := malicious + suspicious
  if total_bad > 0 then vtDangerMsg malicious suspicious public_report_url
  else if harmless > 0 then vtSafeMsg harmless public_report_url
  else vtInconclusiveMsg undetected public_report_url

/-- Python rendering of the `status` variable inside an f-string: absent
(`None`) prints as `None`. -/
def pyOptRepr : Option String → String
  | none => "None"
  | some s => s

/-- Embedding of the polling loop (lines 192-236).  The first `Nat` is the
loop index `i`, the second is the number of attempts left (the loop starts at
index 0 with 10 attempts, so an attempt runs with `fuel + 1` remaining and is
the last one of the `for` range exactly when `fuel = 0`).  Besides the
report text (or the exception escaping to the outer handler) it returns the
list of back-off delays slept, one entry per poll request issued. -/
def vtPoll (env : VtEnv) (public_report_url : String) : Nat → Nat → Except VtExc String × List Nat
  | _, 0 => (Except.ok (vtTimeoutMsg public_report_url), [])
  | i, fuel + 1 =>
    let current_delay := 5 + i * 2
    match env.pollCalls i with
    | .requestError e => (Except.error (.requestError e), [current_delay])
    | .otherError e => (Except.error (.otherError e), [current_delay])
    | .resp r =>
      if r.status_code == 200 then
        if r.error_present then
          (Except.ok (vtErrFetchMsg (r.error_message.getD "Unknown API error during report fetch.")),
           [current_delay])
        else
          let status := r.attributes.status
          if status == some "completed" then
            (Except.ok (_process_vt_report_verdict r.attributes public_report_url), [current_delay])
          else if status == some "queued" || status == some "running" then
            if fuel == 0 then
              (Except.ok (vtStillProcessingMsg (pyOptRepr status) public_report_url), [current_delay])
            else
              let rest := vtPoll env public_report_url (i + 1) fuel
              (rest.1, current_delay :: rest.2)
          else
            (Except.ok (vtUnexpectedStatusMsg (pyOptRepr status) public_report_url), [current_delay])
      else if r.status_code == 404 then
        if fuel == 0 then
          (Except.ok (vtStillProcessing404Msg public_report_url), [current_delay])
        else
          let rest := vtPoll env public_report_url (i + 1) fuel
          (rest.1, current_delay :: rest.2)
      else if 400 ≤ r.status_code then
        (Except.error (.httpStatus r.status_code r.text), [current_delay])
      else
        let rest := vtPoll env public_report_url (i + 1) fuel
        (rest.1, current_delay :: rest.2)

/-- The submission-and-polling phase (lines 154-236), reached when the
existing-report lookup found nothing usable: POST the URL, inspect the
submission response, then poll. -/
def vtSubmitPhase (env : VtEnv) (public_report_url : String) : Except VtExc String × List Nat :=
  match env.submitCall with
  | .requestError e => (Except.error (.requestError e), [])
  | .otherError e => (Except.error (.otherError e), [])
  | .resp s =>
    if s.status_code == 400 then
      let error_code := s.error_code.getD "UNKNOWN_ERROR"
      let error_message := s.error_message.getD "Malformed URL or API error."
      if error_code == "InvalidArgumentError" &&
         containsSubstr (pyLower error_message) "canonicalize url" then
        (Except.ok (vtInvalidUrlMsg public_report_url), [])
      else if error_code == "BadRequestError" &&
              containsSubstr error_message "Wrong URL id" then
        (Except.ok (vtCommonUrlMsg public_report_url), [])
      else
        (Except.ok (vtSubmitIssueMsg error_message), [])
    else if 400 ≤ s.status_code then
      (Except.error (.httpStatus s.status_code s.text), [])
    else if falsyStr s.analysis_id then
      (Except.ok vtNoAnalysisIdMsg, [])
    else
      vtPoll env public_report_url 0 10

/-- Body of the `try` block of `scan_url_with_virustotal` (lines 129-236):
existing-report lookup, then — for the 200-without-statistics and 404 cases,
which fall through — submission and polling. -/
def vtBody (env : VtEnv) (url : String) : Except VtExc String × List Nat :=
  let vt_url_id := get_vt_url_id url
  let public_report_url := VIRUSTOTAL_GUI_BASE_URL ++ vt_url_id ++ "/detection"
  match env.reportCall with
  | .requestError e => (Except.error (.requestError e), [])
  | .otherError e => (Except.error (.otherError e), [])
  | .resp r =>
    if r.status_code == 200 then
      if statsTruthy r.attributes.last_analysis_stats then
        (Except.ok (_process_vt_report_verdict r.attributes public_report_url), [])
      else vtSubmitPhase env public_report_url
    else if r.status_code == 404 then vtSubmitPhase env public_report_url
    else if r.status_code == 401 then (Except.ok vtApiKeyErrMsg, [])
    else if r.status_code == 403 then (Except.ok vtQuotaMsg, [])
    else if 400 ≤ r.status_code then
      (Except.error (.httpStatus r.status_code r.text), [])
    else vtSubmitPhase env public_report_url

/-- The outer exception handlers of `scan_url_with_virustotal` (lines
238-248). -/
def vtHandle : Except VtExc String → String
  | .ok s => s
  | .error (.httpStatus status_code text) =>
    "❌ VT scanning issue (HTTP Error " ++ toString status_code ++ "). Try again. " ++
    "(Details: `" ++ text.take 150 ++ "`...)"
  | .error (.requestError e) =>
    "❌ VT connection error. Check internet. (Error: `" ++ e ++ "`)"
  | .error (.otherError e) =>
    "❌ Unexpected VT scan error. (Details: `" ++ e ++ "`)"

/-- Embedding of `scan_url_with_virustotal` (lines 110-248): the produced
report text together with the list of polling delays slept (one entry per
poll request issued). -/
def scan_url_with_virustotal (env : VtEnv) (url : String) : String × List Nat :=
  if falsyStr env.apiKey then (vtNoKeyMsg, [])
  else
    let res := vtBody env url
    (vtHandle res.1, res.2)

/-! ## Orchestrator (`scan_url`, lines 20-46) -/

/-- Environment of one `scan_url` call: one GSB environment and one
VirusTotal environment. -/
structure ScanEnv where
  gsb : GsbEnv
  vt : VtEnv

/-- Embedding of `scan_url` (lines 20-46): the final report text together
with a flag recording whether `scan_url_with_virustotal` was invoked. -/
def scan_url (env : ScanEnv) (url : String) : String × Bool :=
  let gsb_result := scan_url_with_gsb env.gsb url
  if containsSubstr gsb_result "DANGER!" || containsSubstr gsb_result "Error:" then
    (gsb_result, false)
  else if containsSubstr (pyLower gsb_result) "safe" then
    let vt_result := (scan_url_with_virustotal env.vt url).1
    if containsSubstr vt_result "DANGER!" || containsSubstr vt_result "WARNING!" then
      (vt_result, true)
    else
      (gsb_result ++ "\n\n--- VirusTotal Scan ---\n" ++ vt_result, true)
  else
    ((scan_url_with_virustotal env.vt url).1, true)

/-! ## Distinguished environments and classes used by the claims -/

/-- The GSB outcomes after which `scan_url` actually does return the GSB text
without consulting VirusTotal: a malicious verdict, the missing-credential
error, the 404 error, and the connection error (their report texts carry the
`DANGER!` or `Error:` marker the orchestrator branches on). -/
def gsbImmediate (g : GsbEnv) : Prop :=
  falsyStr g.apiKey = true ∨
  (∃ e, g.net = GsbNet.requestError e) ∨
  (∃ m t, g.net = GsbNet.resp 404 m t) ∨
  (∃ sc l t, g.net = GsbNet.resp sc (some l) t ∧ sc < 400 ∧ l.isEmpty = false)

/-- A GSB environment whose call fails with HTTP 403 (an access-denied
provider error). -/
def gsbEnv403 : GsbEnv := ⟨some "k", GsbNet.resp 403 none ""⟩

/-- A GSB environment answering 200 with no matches (a safe verdict). -/
def gsbEnvSafe : GsbEnv := ⟨some "k", GsbNet.resp 200 none ""⟩

/-- A VirusTotal environment with no API key configured. -/
def vtEnvNoKey : VtEnv :=
  ⟨none, NetCall.resp ⟨404, false, none, ⟨none, none⟩, ""⟩,
   NetCall.resp ⟨200, none, none, some "id", ""⟩,
   fun _ => NetCall.resp ⟨200, false, none, ⟨none, none⟩, ""⟩⟩

/-- A VirusTotal environment where the existing-report lookup answers 404 and
the submission is rejected with an unrecognized 400 whose provider message
happens to contain the `DANGER!` marker. -/
def vtEnvSubmit400Danger : VtEnv :=
  ⟨some "k", NetCall.resp ⟨404, false, none, ⟨none, none⟩, ""⟩,
   NetCall.resp ⟨400, some "OtherError", some "DANGER! backend glitch", none, ""⟩,
   fun _ => NetCall.resp ⟨200, false, none, ⟨none, none⟩, ""⟩⟩

/-- A VirusTotal environment whose submission succeeds and whose every poll
answers 200 with status `queued`. -/
def vtEnvAllQueued : VtEnv :=
  ⟨some "k", NetCall.resp ⟨404, false, none, ⟨none, none⟩, ""⟩,
   NetCall.resp ⟨200, none, none, some "id", ""⟩,
   fun _ => NetCall.resp ⟨200, false, none, ⟨none, some "queued"⟩, ""⟩⟩

/-- A VirusTotal environment whose submission succeeds and whose every poll
answers 200 with status `running`, carrying other body fields as well. -/
def vtEnvAllRunning : VtEnv :=
  ⟨some "k", NetCall.resp ⟨404, false, none, ⟨none, none⟩, ""⟩,
   NetCall.resp ⟨200, none, none, some "id", ""⟩,
   fun _ => NetCall.resp
     ⟨200, false, none, ⟨some [("harmless", 3)], some "running"⟩, "partial body"⟩⟩

/-- A VirusTotal environment whose submission is rejected with the
recognized uncanonicalizable-URL sub-error. -/
def vtEnvCanon : VtEnv :=
  ⟨some "k", NetCall.resp ⟨404, false, none, ⟨none, none⟩, ""⟩,
   NetCall.resp ⟨400, some "InvalidArgumentError", some "Could not canonicalize URL", none, ""⟩,
   fun _ => NetCall.resp ⟨200, false, none, ⟨none, none⟩, ""⟩⟩

/-- A VirusTotal environment whose polls answer 200, status `completed`, with
no `last_analysis_stats` at all. -/
def vtEnvCompletedEmpty : VtEnv :=
  ⟨some "k", NetCall.resp ⟨404, false, none, ⟨none, none⟩, ""⟩,
   NetCall.resp ⟨200, none, none, some "id", ""⟩,
   fun _ => NetCall.resp ⟨200, false, none, ⟨none, some "completed"⟩, ""⟩⟩

/-- A VirusTotal environment whose polls answer 200 with no `status` field in
`data.attributes`. -/
def vtEnvNoStatus : VtEnv :=
  ⟨some "k", NetCall.resp ⟨404, false, none, ⟨none, none⟩, ""⟩,
   NetCall.resp ⟨200, none, none, some "id", ""⟩,
   fun _ => NetCall.resp ⟨200, false, none, ⟨none, none⟩, ""⟩⟩

/-! ## Helper lemmas about substring containment and nonemptiness -/

theorem hasSubstrList_nil_pat (l : List Char) : hasSubstrList [] l = true := by
  cases l <;> rfl

theorem hasSubstrList_append_left (pat l m : List Char) (h : hasSubstrList pat l = true) :
    hasSubstrList pat (l ++ m) = true := by
  induction l with
  | nil =>
    have hp : pat = [] := by
      simpa [hasSubstrList, List.isEmpty_iff] using h
    subst hp
    exact hasSubstrList_nil_pat m
  | cons c t ih =>
    rw [List.cons_append]
    simp only [hasSubstrList, Bool.or_eq_true] at h ⊢
    rcases h with h | h
    · left
      rw [List.isPrefixOf_iff_prefix] at h ⊢
      have h2 : (c :: t) <+: (c :: (t ++ m)) := by
        rw [← List.cons_append]
        exact List.prefix_append _ _
      exact h.trans h2
    · right
      exact ih h

theorem hasSubstrList_append_right (pat l m : List Char) (h : hasSubstrList pat m = true) :
    hasSubstrList pat (l ++ m) = true := by
  induction l with
  | nil => simpa using h
  | cons c t ih =>
    rw [List.cons_append]
    simp only [hasSubstrList, Bool.or_eq_true]
    right
    exact ih

theorem hasSubstrList_self (pat : List Char) : hasSubstrList pat pat = true := by
  cases pat with
  | nil => rfl
  | cons c t =>
    simp only [hasSubstrList, Bool.or_eq_true]
    left
    rw [List.isPrefixOf_iff_prefix]

theorem containsSubstr_append_left (a b pat : String) (h : containsSubstr a pat = true) :
    containsSubstr (a ++ b) pat = true := by
  unfold containsSubstr at h ⊢
  rw [String.data_append]
  exact hasSubstrList_append_left _ _ _ h

theorem containsSubstr_append_right (a b pat : String) (h : containsSubstr b pat = true) :
    containsSubstr (a ++ b) pat = true := by
  unfold containsSubstr at h ⊢
  rw [String.data_append]
  exact hasSubstrList_append_right _ _ _ h

theorem containsSubstr_self (pat : String) : containsSubstr pat pat = true :=
  hasSubstrList_self pat.data

theorem ne_empty_of_data (s : String) (h : s.data ≠ []) : s ≠ "" := by
  intro hc
  exact h (by rw [hc])

theorem data_append_ne (a b : String) (h : a.data ≠ []) : (a ++ b).data ≠ [] := by
  rw [String.data_append]
  intro hc
  exact h (List.append_eq_nil.mp hc).1

theorem data_ne_of_ne (s : String) (h : s ≠ "") : s.data ≠ [] := by
  intro hc
  exact h (String.ext_iff.mpr hc)

/-- Every report text `scan_url_with_gsb` can produce is non-empty. -/
theorem gsb_ne (env : GsbEnv) (url : String) : scan_url_with_gsb env url ≠ "" := by
  apply ne_empty_of_data
  unfold scan_url_with_gsb gsbNoKeyMsg gsbConnectMsg gsbUnexpectedMsg gsbInvalidMsg
    gsbDeniedMsg gsbEndpointMsg gsbOtherHttpMsg gsbSafeMsg gsbDangerMsg
  repeat' split
  all_goals repeat apply data_append_ne
  all_goals decide

/-- Every report text `_process_vt_report_verdict` can produce is non-empty. -/
theorem process_ne (a : VtAttributes) (pu : String) :
    _process_vt_report_verdict a pu ≠ "" := by
  apply ne_empty_of_data
  unfold _process_vt_report_verdict vtDangerMsg vtSafeMsg vtInconclusiveMsg
  dsimp only
  repeat' split
  all_goals repeat apply data_append_ne
  all_goals decide

/-- Every text the polling loop returns through `Except.ok` is non-empty. -/
theorem vtPoll_ok_ne (env : VtEnv) (pu : String) :
    ∀ fuel i s, (vtPoll env pu i fuel).1 = Except.ok s → s ≠ "" := by
  intro fuel
  induction fuel with
  | zero =>
    intro i s hs
    simp only [vtPoll, Except.ok.injEq] at hs
    subst hs
    apply ne_empty_of_data
    unfold vtTimeoutMsg
    repeat apply data_append_ne
    decide
  | succ n ih =>
    intro i s hs
    unfold vtPoll at hs
    rcases hc : env.pollCalls i with r | e | e <;> rw [hc] at hs <;>
      simp only [] at hs
    · split at hs
      · split at hs
        · simp only [Except.ok.injEq] at hs
          subst hs
          apply ne_empty_of_data
          unfold vtErrFetchMsg
          repeat apply data_append_ne
          decide
        · split at hs
          · simp only [Except.ok.injEq] at hs
            subst hs
            exact process_ne _ _
          · split at hs
            · split at hs
              · simp only [Except.ok.injEq] at hs
                subst hs
                apply ne_empty_of_data
                unfold vtStillProcessingMsg
                repeat apply data_append_ne
                decide
              · exact ih (i + 1) s hs
            · simp only [Except.ok.injEq] at hs
              subst hs
              apply ne_empty_of_data
              unfold vtUnexpectedStatusMsg
              repeat apply data_append_ne
              decide
      · split at hs
        · split at hs
          · simp only [Except.ok.injEq] at hs
            subst hs
            apply ne_empty_of_data
            unfold vtStillProcessing404Msg
            repeat apply data_append_ne
            decide
          · exact ih (i + 1) s hs
        · split at hs
          · exact absurd hs (by simp)
          · exact ih (i + 1) s hs
    · exact absurd hs (by simp)
    · exact absurd hs (by simp)

/-- Every text the submission-and-polling phase returns through `Except.ok`
is non-empty. -/
theorem vtSubmitPhase_ok_ne (env : VtEnv) (pu : String) :
    ∀ s, (vtSubmitPhase env pu).1 = Except.ok s → s ≠ "" := by
  intro s hs
  unfold vtSubmitPhase at hs
  rcases hsub : env.submitCall with sr | e | e <;> rw [hsub] at hs <;>
    simp only [] at hs
  · split at hs
    · split at hs
      · simp only [Except.ok.injEq] at hs
        subst hs
        apply ne_empty_of_data
        unfold vtInvalidUrlMsg
        repeat apply data_append_ne
        decide
      · split at hs
        · simp only [Except.ok.injEq] at hs
          subst hs
          apply ne_empty_of_data
          unfold vtCommonUrlMsg
          repeat apply data_append_ne
          decide
        · simp only [Except.ok.injEq] at hs
          subst hs
          apply ne_empty_of_data
          unfold vtSubmitIssueMsg
          repeat apply data_append_ne
          decide
    · split at hs
      · exact absurd hs (by simp)
      · split at hs
        · simp only [Except.ok.injEq] at hs
          subst hs
          decide
        · exact vtPoll_ok_ne env pu 10 0 s hs
  · exact absurd hs (by simp)
  · exact absurd hs (by simp)

/-- Every text the `try` body of `scan_url_with_virustotal` returns through
`Except.ok` is non-empty. -/
theorem vtBody_ok_ne (env : VtEnv) (url : String) :
    ∀ s, (vtBody env url).1 = Except.ok s → s ≠ "" := by
  intro s hs
  unfold vtBody at hs
  dsimp only at hs
  rcases hr : env.reportCall with r | e | e <;> rw [hr] at hs <;>
    simp only [] at hs
  · split at hs
    · split at hs
      · simp only [Except.ok.injEq] at hs
        subst hs
        exact process_ne _ _
      · exact vtSubmitPhase_ok_ne _ _ s hs
    · split at hs
      · exact vtSubmitPhase_ok_ne _ _ s hs
      · split at hs
        · simp only [Except.ok.injEq] at hs
          subst hs
          decide
        · split at hs
          · simp only [Except.ok.injEq] at hs
            subst hs
            decide
          · split at hs
            · exact absurd hs (by simp)
            · exact vtSubmitPhase_ok_ne _ _ s hs
  · exact absurd hs (by simp)
  · exact absurd hs (by simp)

/-- Every report text `scan_url_with_virustotal` can produce is non-empty. -/
theorem vt_ne (env : VtEnv) (url : String) :
    (scan_url_with_virustotal env url).1 ≠ "" := by
  unfold scan_url_with_virustotal
  split
  · decide
  · show vtHandle (vtBody env url).1 ≠ ""
    rcases hb : (vtBody env url).1 with e | s
    · rcases e with ⟨sc, t⟩ | e | e <;>
        · apply ne_empty_of_data
          repeat apply data_append_ne
          decide
    · simpa [vtHandle] using vtBody_ok_ne env url s hb

/-! ## Helper lemmas about the base64url identifier -/

theorem b64Char_ne_pad (n : Nat) : (b64Char n == '=') = false := by
  have hall : ∀ c ∈ b64Alphabet, (c == '=') = false := by decide
  unfold b64Char
  rw [List.getD_eq_getElem?_getD]
  cases h : b64Alphabet[n]? with
  | none => simp [h]
  | some c =>
    simp only [h, Option.getD_some]
    exact hall c (List.getElem?_mem h)

/-- The base64 encoding never starts with a padding character, so a
leading strip of `=` is the identity. -/
theorem b64_dropWhile_pad (l : List Nat) :
    (b64Groups l).dropWhile (fun x => x == '=') = b64Groups l := by
  match l with
  | [] => rfl
  | [a] => simp [b64Groups, List.dropWhile_cons, b64Char_ne_pad]
  | [a, b] => simp [b64Groups, List.dropWhile_cons, b64Char_ne_pad]
  | a :: b :: c :: t => simp [b64Groups, List.dropWhile_cons, b64Char_ne_pad]

/-! ## Claim C1 -/

/-- Claim C1 (corrected): `scan_url` returns the GSB report text unchanged
and never invokes the VirusTotal provider for the GSB outcomes whose report
text carries the `DANGER!` or `Error:` marker: a malicious verdict, the
missing-credential error, the 404 error and the connection error.  (The
remaining `ProviderError` shapes — 400, 403, other HTTP statuses and
unexpected exceptions — fall through to VirusTotal; see the
counterexample.) -/
theorem C1_gsb_priority (env : ScanEnv) (url : String) (h : gsbImmediate env.gsb) :
    scan_url env url = (scan_url_with_gsb env.gsb url, false) := by
  have hmark : (containsSubstr (scan_url_with_gsb env.gsb url) "DANGER!" ||
      containsSubstr (scan_url_with_gsb env.gsb url) "Error:") = true := by
    rcases h with hk | ⟨e, he⟩ | ⟨m, t, he⟩ | ⟨sc, l, t, he, hlt, hne⟩
    · unfold scan_url_with_gsb
      rw [if_pos hk]
      decide
    · unfold scan_url_with_gsb
      rw [he]
      split
      · decide
      · have hc : containsSubstr (gsbConnectMsg e) "Error:" = true := by
          unfold gsbConnectMsg
          apply containsSubstr_append_left
          apply containsSubstr_append_left
          decide
        simp [gsbConnectMsg] at hc ⊢
        simp [hc]
    · unfold scan_url_with_gsb
      rw [he]
      split
      · decide
      · show (containsSubstr gsbEndpointMsg "DANGER!" ||
            containsSubstr gsbEndpointMsg "Error:") = true
        decide
    · unfold scan_url_with_gsb
      rw [he]
      split
      · decide
      · dsimp only
        rw [if_neg (by omega : ¬ 400 ≤ sc)]
        have hc : containsSubstr (gsbDangerMsg (gsbThreatTypes l)) "DANGER!" = true := by
          unfold gsbDangerMsg
          repeat apply containsSubstr_append_left
          decide
        simp [hne, hc]
  unfold scan_url
  simp [hmark]

/-- Witness for C1: a concrete 404 environment, an immediate-return class. -/
theorem C1_gsb_priority_witness :
    scan_url ⟨⟨some "k", GsbNet.resp 404 none "nf"⟩, vtEnvNoKey⟩ "http://w" =
      (scan_url_with_gsb ⟨some "k", GsbNet.resp 404 none "nf"⟩ "http://w", false) :=
  C1_gsb_priority ⟨⟨some "k", GsbNet.resp 404 none "nf"⟩, vtEnvNoKey⟩ "http://w"
    (Or.inr (Or.inr (Or.inl ⟨none, "nf", rfl⟩)))

/-- Counterexample to C1 as stated: a GSB call failing with HTTP 403 produces
a provider-error report, yet `scan_url` does invoke VirusTotal (the flag is
`true`) and returns a text different from the GSB report. -/
theorem C1_counterexample :
    scan_url_with_gsb gsbEnv403 "http://x.com" = gsbDeniedMsg "" ∧
    (scan_url ⟨gsbEnv403, vtEnvNoKey⟩ "http://x.com").2 = true ∧
    (scan_url ⟨gsbEnv403, vtEnvNoKey⟩ "http://x.com").1 ≠
      scan_url_with_gsb gsbEnv403 "http://x.com" := by
  refine ⟨by decide, by decide, by decide⟩

/-! ## Claim C2 -/

/-- Claim C2 (confirmed): for every environment (covering every provider
failure mode representable at the call boundary: transport errors, HTTP
statuses, protocol-shape anomalies, missing credentials and arbitrary other
exceptions) and every URL string, `scan_url` is a total function — the
embedded handlers convert every failure to report text — and the returned
report text is non-empty. -/
theorem C2_scan_total_nonempty (env : ScanEnv) (url : String) :
    (scan_url env url).1 ≠ "" := by
  unfold scan_url
  dsimp only
  split
  · exact gsb_ne env.gsb url
  · split
    · split
      · exact vt_ne env.vt url
      · apply ne_empty_of_data
        apply data_append_ne
        apply data_append_ne
        exact data_ne_of_ne _ (gsb_ne env.gsb url)
    · exact vt_ne env.vt url

/-! ## Claim C7 -/

/-- Claim C7 (confirmed): `get_vt_url_id` is a pure, deterministic function of
the URL string — equal inputs give equal identifiers — and it coincides with
the spec's description: the base64url encoding of the URL's UTF-8 bytes with
the `=` padding removed. -/
theorem C7_url_id_deterministic (u v : String) (h : u = v) :
    get_vt_url_id u = get_vt_url_id v ∧ get_vt_url_id u = vtUrlIdSpec u := by
  subst h
  refine ⟨rfl, ?_⟩
  unfold get_vt_url_id vtUrlIdSpec stripChar
  rw [b64_dropWhile_pad]

/-- Witness for C7 at a concrete URL. -/
theorem C7_url_id_deterministic_witness :
    get_vt_url_id "https://example.com" = get_vt_url_id "https://example.com" ∧
    get_vt_url_id "https://example.com" = vtUrlIdSpec "https://example.com" :=
  C7_url_id_deterministic "https://example.com" "https://example.com" rfl

/-! ## Claim C4 -/

/-- Claim C4 (corrected): when GSB reports its safe verdict, the Reputation
Scanner is run and the composition is decided by the `DANGER!` / `WARNING!`
markers in the Reputation Scanner's text: a Malicious verdict always carries
the `DANGER!` marker and is then returned alone, and a text carrying neither
marker yields the concatenation GSB safe text, separator, Reputation Scanner
text, in that order.  (A non-malicious report whose interpolated provider
message happens to contain a marker is also returned alone — see the
counterexample — so the composition is keyed on the markers, not on the
verdict.) -/
theorem C4_composition (env : ScanEnv) (url : String)
    (hgsb : scan_url_with_gsb env.gsb url = gsbSafeMsg) :
    (∀ m s pu, containsSubstr (vtDangerMsg m s pu) "DANGER!" = true) ∧
    ((containsSubstr (scan_url_with_virustotal env.vt url).1 "DANGER!" ||
      containsSubstr (scan_url_with_virustotal env.vt url).1 "WARNING!") = true →
        scan_url env url = ((scan_url_with_virustotal env.vt url).1, true)) ∧
    ((containsSubstr (scan_url_with_virustotal env.vt url).1 "DANGER!" ||
      containsSubstr (scan_url_with_virustotal env.vt url).1 "WARNING!") = false →
        scan_url env url =
          (gsbSafeMsg ++ "\n\n--- VirusTotal Scan ---\n" ++
            (scan_url_with_virustotal env.vt url).1, true)) := by
  have h1 : (containsSubstr gsbSafeMsg "DANGER!" ||
      containsSubstr gsbSafeMsg "Error:") = false := by decide
  have h2 : containsSubstr (pyLower gsbSafeMsg) "safe" = true := by decide
  refine ⟨?_, ?_, ?_⟩
  · intro m s pu
    unfold vtDangerMsg
    repeat apply containsSubstr_append_left
    decide
  · intro hvt
    unfold scan_url
    rw [hgsb]
    simp [h1, h2, hvt]
  · intro hvt
    unfold scan_url
    rw [hgsb]
    simp [h1, h2, hvt]

/-- Witness for C4: GSB safe plus a VirusTotal environment with no key, whose
text has no marker, so the composed result is the separated concatenation. -/
theorem C4_composition_witness :
    scan_url ⟨gsbEnvSafe, vtEnvNoKey⟩ "http://w" =
      (gsbSafeMsg ++ "\n\n--- VirusTotal Scan ---\n" ++
        (scan_url_with_virustotal vtEnvNoKey "http://w").1, true) :=
  (C4_composition ⟨gsbEnvSafe, vtEnvNoKey⟩ "http://w" (by decide)).2.2 (by decide)

/-- Counterexample to C4 as stated: GSB is safe and the Reputation Scanner
result is a submission error — not a Malicious verdict — whose provider
message happens to contain `DANGER!`; `scan_url` then returns that error text
alone instead of the concatenation the claim promises for every
non-Malicious result. -/
theorem C4_counterexample :
    (scan_url_with_virustotal vtEnvSubmit400Danger "http://x").1 =
      vtSubmitIssueMsg "DANGER! backend glitch" ∧
    scan_url ⟨gsbEnvSafe, vtEnvSubmit400Danger⟩ "http://x" =
      (vtSubmitIssueMsg "DANGER! backend glitch", true) ∧
    scan_url ⟨gsbEnvSafe, vtEnvSubmit400Danger⟩ "http://x" ≠
      (gsbSafeMsg ++ "\n\n--- VirusTotal Scan ---\n" ++
        (scan_url_with_virustotal vtEnvSubmit400Danger "http://x").1, true) := by
  refine ⟨by decide, by decide, by decide⟩

/-! ## Claim C5 -/

/-- Claim C5 (corrected): the GSB status-code taxonomy.  A missing credential
yields its own error independently of the network outcome (so before any
request); 400 maps to the invalid-URL message, 403 to the access-denied /
quota message, 404 to the misconfigured-endpoint message, every other error
status — including 401, which the claim wrongly groups with 403 — to the
generic retry-later message; a connection failure maps to the connectivity
message and any other exception to the generic unexpected-error message. -/
theorem C5_gsb_error_taxonomy :
    (∀ g : GsbEnv, ∀ url, falsyStr g.apiKey = true →
       scan_url_with_gsb g url = gsbNoKeyMsg) ∧
    (∀ k url m t, falsyStr (some k) = false →
       scan_url_with_gsb ⟨some k, GsbNet.resp 400 m t⟩ url = gsbInvalidMsg t) ∧
    (∀ k url m t, falsyStr (some k) = false →
       scan_url_with_gsb ⟨some k, GsbNet.resp 403 m t⟩ url = gsbDeniedMsg t) ∧
    (∀ k url m t, falsyStr (some k) = false →
       scan_url_with_gsb ⟨some k, GsbNet.resp 404 m t⟩ url = gsbEndpointMsg) ∧
    (∀ k url sc m t, falsyStr (some k) = false → 400 ≤ sc →
       sc ≠ 400 → sc ≠ 403 → sc ≠ 404 →
       scan_url_with_gsb ⟨some k, GsbNet.resp sc m t⟩ url = gsbOtherHttpMsg sc t) ∧
    (∀ k url e, falsyStr (some k) = false →
       scan_url_with_gsb ⟨some k, GsbNet.requestError e⟩ url = gsbConnectMsg e) ∧
    (∀ k url e, falsyStr (some k) = false →
       scan_url_with_gsb ⟨some k, GsbNet.otherError e⟩ url = gsbUnexpectedMsg e) := by
  refine ⟨?_, ?_, ?_, ?_, ?_, ?_, ?_⟩
  · intro g url hk
    unfold scan_url_with_gsb
    rw [if_pos hk]
  · intro k url m t hk
    unfold scan_url_with_gsb
    rw [if_neg (by simp [hk])]
    rfl
  · intro k url m t hk
    unfold scan_url_with_gsb
    rw [if_neg (by simp [hk])]
    rfl
  · intro k url m t hk
    unfold scan_url_with_gsb
    rw [if_neg (by simp [hk])]
    rfl
  · intro k url sc m t hk hge h400 h403 h404
    unfold scan_url_with_gsb
    rw [if_neg (by simp [hk])]
    dsimp only
    rw [if_pos hge]
    rw [if_neg (by simp [h400]), if_neg (by simp [h403]), if_neg (by simp [h404])]
  · intro k url e hk
    unfold scan_url_with_gsb
    rw [if_neg (by simp [hk])]
  · intro k url e hk
    unfold scan_url_with_gsb
    rw [if_neg (by simp [hk])]

/-- Witness for C5 at concrete inputs, including the 401-to-generic case. -/
theorem C5_gsb_error_taxonomy_witness :
    scan_url_with_gsb ⟨some "k", GsbNet.resp 401 none "d"⟩ "u" = gsbOtherHttpMsg 401 "d" ∧
    scan_url_with_gsb ⟨some "k", GsbNet.resp 400 none "d"⟩ "u" = gsbInvalidMsg "d" ∧
    scan_url_with_gsb ⟨none, GsbNet.requestError "e"⟩ "u" = gsbNoKeyMsg :=
  by
  refine ⟨?_, ?_, ?_⟩
  · exact C5_gsb_error_taxonomy.2.2.2.2.1 "k" "u" 401 none "d" (by decide)
      (by omega) (by omega) (by omega) (by omega)
  · exact C5_gsb_error_taxonomy.2.1 "k" "u" none "d" (by decide)
  · exact C5_gsb_error_taxonomy.1 ⟨none, GsbNet.requestError "e"⟩ "u" (by decide)

set_option maxRecDepth 4000 in
/-- Counterexample to C5 as stated: a 401 response is mapped to the generic
retry-later message, not to the access-denied / quota message the claim
promises for 401. -/
theorem C5_counterexample :
    scan_url_with_gsb ⟨some "k", GsbNet.resp 401 none "quota"⟩ "u" =
      gsbOtherHttpMsg 401 "quota" ∧
    scan_url_with_gsb ⟨some "k", GsbNet.resp 401 none "quota"⟩ "u" ≠
      gsbDeniedMsg "quota" := by
  refine ⟨by decide, by decide⟩

/-! ## Claim C3 -/

/-- Claim C3 (confirmed): the verdict normalizer returns the Malicious report
stating both the malicious and suspicious counts with the report link
whenever `malicious + suspicious > 0`, otherwise the Safe report stating the
harmless count whenever `harmless > 0`, otherwise the Inconclusive report
with the report link; and the three concrete examples of the spec evaluate
accordingly. -/
theorem C3_verdict_normalizer (a : VtAttributes) (pu : String) :
    (0 < dget (a.last_analysis_stats.getD []) "malicious" +
         dget (a.last_analysis_stats.getD []) "suspicious" →
       _process_vt_report_verdict a pu =
         vtDangerMsg (dget (a.last_analysis_stats.getD []) "malicious")
           (dget (a.last_analysis_stats.getD []) "suspicious") pu ∧
       containsSubstr (_process_vt_report_verdict a pu)
         (toString (dget (a.last_analysis_stats.getD []) "malicious")) = true ∧
       containsSubstr (_process_vt_report_verdict a pu)
         (toString (dget (a.last_analysis_stats.getD []) "suspicious")) = true ∧
       containsSubstr (_process_vt_report_verdict a pu) pu = true) ∧
    (dget (a.last_analysis_stats.getD []) "malicious" +
       dget (a.last_analysis_stats.getD []) "suspicious" ≤ 0 →
     0 < dget (a.last_analysis_stats.getD []) "harmless" →
       _process_vt_report_verdict a pu =
         vtSafeMsg (dget (a.last_analysis_stats.getD []) "harmless") pu ∧
       containsSubstr (_process_vt_report_verdict a pu)
         (toString (dget (a.last_analysis_stats.getD []) "harmless")) = true) ∧
    (dget (a.last_analysis_stats.getD []) "malicious" +
       dget (a.last_analysis_stats.getD []) "suspicious" ≤ 0 →
     dget (a.last_analysis_stats.getD []) "harmless" ≤ 0 →
       _process_vt_report_verdict a pu =
         vtInconclusiveMsg (dget (a.last_analysis_stats.getD []) "undetected") pu ∧
       containsSubstr (_process_vt_report_verdict a pu) pu = true) ∧
    _process_vt_report_verdict
      ⟨some [("malicious", 2), ("suspicious", 1), ("harmless", 50), ("undetected", 10)], none⟩ pu
      = vtDangerMsg 2 1 pu ∧
    _process_vt_report_verdict
      ⟨some [("malicious", 0), ("suspicious", 0), ("harmless", 60), ("undetected", 5)], none⟩ pu
      = vtSafeMsg 60 pu ∧
    _process_vt_report_verdict
      ⟨some [("malicious", 0), ("suspicious", 0), ("harmless", 0), ("undetected", 0)], none⟩ pu
      = vtInconclusiveMsg 0 pu := by
  refine ⟨?_, ?_, ?_, rfl, rfl, rfl⟩
  · intro hms
    have heq : _process_vt_report_verdict a pu =
        vtDangerMsg (dget (a.last_analysis_stats.getD []) "malicious")
          (dget (a.last_analysis_stats.getD []) "suspicious") pu := by
      unfold _process_vt_report_verdict
      dsimp only
      rw [if_pos hms]
    refine ⟨heq, ?_, ?_, ?_⟩
    · rw [heq]
      unfold vtDangerMsg
      apply containsSubstr_append_left
      apply containsSubstr_append_left
      apply containsSubstr_append_left
      apply containsSubstr_append_left
      apply containsSubstr_append_left
      apply containsSubstr_append_left
      apply containsSubstr_append_left
      apply containsSubstr_append_right
      exact containsSubstr_self _
    · rw [heq]
      unfold vtDangerMsg
      apply containsSubstr_append_left
      apply containsSubstr_append_left
      apply containsSubstr_append_left
      apply containsSubstr_append_left
      apply containsSubstr_append_left
      apply containsSubstr_append_right
      exact containsSubstr_self _
    · rw [heq]
      unfold vtDangerMsg
      apply containsSubstr_append_left
      apply containsSubstr_append_right
      exact containsSubstr_self _
  · intro hms hh
    have heq : _process_vt_report_verdict a pu =
        vtSafeMsg (dget (a.last_analysis_stats.getD []) "harmless") pu := by
      unfold _process_vt_report_verdict
      dsimp only
      rw [if_neg (by omega), if_pos hh]
    refine ⟨heq, ?_⟩
    rw [heq]
    unfold vtSafeMsg
    apply containsSubstr_append_left
    apply containsSubstr_append_left
    apply containsSubstr_append_left
    apply containsSubstr_append_left
    apply containsSubstr_append_right
    exact containsSubstr_self _
  · intro hms hh
    have heq : _process_vt_report_verdict a pu =
        vtInconclusiveMsg (dget (a.last_analysis_stats.getD []) "undetected") pu := by
      unfold _process_vt_report_verdict
      dsimp only
      rw [if_neg (by omega), if_neg (by omega)]
    refine ⟨heq, ?_⟩
    rw [heq]
    unfold vtInconclusiveMsg
    apply containsSubstr_append_left
    apply containsSubstr_append_right
    exact containsSubstr_self _

/-- Witness for C3 at the spec's first example. -/
theorem C3_verdict_normalizer_witness :
    _process_vt_report_verdict
      ⟨some [("malicious", 2), ("suspicious", 1), ("harmless", 50), ("undetected", 10)], none⟩
      "https://vt/r" =
      vtDangerMsg 2 1 "https://vt/r" ∧
    containsSubstr
      (_process_vt_report_verdict
        ⟨some [("malicious", 2), ("suspicious", 1), ("harmless", 50), ("undetected", 10)], none⟩
        "https://vt/r") "https://vt/r" = true := by
  have h := (C3_verdict_normalizer
    ⟨some [("malicious", 2), ("suspicious", 1), ("harmless", 50), ("undetected", 10)], none⟩
    "https://vt/r").1 (by decide)
  exact ⟨h.1, h.2.2.2⟩

/-! ## Claim C6 -/

theorem delays_cons_step (i k : Nat) :
    (5 + i * 2) :: (List.range k).map (fun j => 5 + (i + 1 + j) * 2) =
      (List.range (k + 1)).map (fun j => 5 + (i + j) * 2) := by
  rw [List.range_succ_eq_map, List.map_cons, List.map_map]
  simp only [Nat.add_zero]
  congr 1
  apply List.map_congr_left
  intro j hj
  simp only [Function.comp_apply]
  omega

/-- The delays slept by the polling loop started at index `i` with `fuel`
attempts left form a prefix of the arithmetic sequence `5 + (i + j) * 2`. -/
theorem vtPoll_delays (env : VtEnv) (pu : String) :
    ∀ fuel i, ∃ k, k ≤ fuel ∧
      (vtPoll env pu i fuel).2 = (List.range k).map (fun j => 5 + (i + j) * 2) := by
  intro fuel
  induction fuel with
  | zero => exact fun i => ⟨0, Nat.le_refl 0, rfl⟩
  | succ n ih =>
    intro i
    have hone : ([5 + i * 2] : List Nat) =
        (List.range 1).map (fun j => 5 + (i + j) * 2) := by
      rw [show List.range 1 = [0] from by decide]
      simp
    unfold vtPoll
    cases hc : env.pollCalls i with
    | requestError e => exact ⟨1, by omega, hone⟩
    | otherError e => exact ⟨1, by omega, hone⟩
    | resp r =>
      dsimp only
      split
      · split
        · exact ⟨1, by omega, hone⟩
        · split
          · exact ⟨1, by omega, hone⟩
          · split
            · split
              · exact ⟨1, by omega, hone⟩
              · obtain ⟨k, hk, he⟩ := ih (i + 1)
                refine ⟨k + 1, by omega, ?_⟩
                dsimp only
                rw [he]
                exact delays_cons_step i k
            · exact ⟨1, by omega, hone⟩
      · split
        · split
          · exact ⟨1, by omega, hone⟩
          · obtain ⟨k, hk, he⟩ := ih (i + 1)
            refine ⟨k + 1, by omega, ?_⟩
            dsimp only
            rw [he]
            exact delays_cons_step i k
        · split
          · exact ⟨1, by omega, hone⟩
          · obtain ⟨k, hk, he⟩ := ih (i + 1)
            refine ⟨k + 1, by omega, ?_⟩
            dsimp only
            rw [he]
            exact delays_cons_step i k

theorem vtSubmitPhase_delays (env : VtEnv) (pu : String) :
    ∃ k, k ≤ 10 ∧ (vtSubmitPhase env pu).2 = (List.range k).map (fun j => 5 + 2 * j) := by
  unfold vtSubmitPhase
  cases hs : env.submitCall with
  | requestError e => exact ⟨0, by omega, rfl⟩
  | otherError e => exact ⟨0, by omega, rfl⟩
  | resp sr =>
    dsimp only
    split
    · split
      · exact ⟨0, by omega, rfl⟩
      · split
        · exact ⟨0, by omega, rfl⟩
        · exact ⟨0, by omega, rfl⟩
    · split
      · exact ⟨0, by omega, rfl⟩
      · split
        · exact ⟨0, by omega, rfl⟩
        · obtain ⟨k, hk, he⟩ := vtPoll_delays env pu 10 0
          refine ⟨k, hk, ?_⟩
          rw [he]
          apply List.map_congr_left
          intro j hj
          omega

/-- Shape of the delay trace of a whole `scan_url_with_virustotal` call. -/
theorem vt_delays_shape (env : VtEnv) (url : String) :
    ∃ k, k ≤ 10 ∧
      (scan_url_with_virustotal env url).2 = (List.range k).map (fun j => 5 + 2 * j) := by
  unfold scan_url_with_virustotal
  split
  · exact ⟨0, by omega, rfl⟩
  · dsimp only
    unfold vtBody
    dsimp only
    cases hr : env.reportCall with
    | requestError e => exact ⟨0, by omega, rfl⟩
    | otherError e => exact ⟨0, by omega, rfl⟩
    | resp r =>
      dsimp only
      split
      · split
        · exact ⟨0, by omega, rfl⟩
        · exact vtSubmitPhase_delays env _
      · split
        · exact vtSubmitPhase_delays env _
        · split
          · exact ⟨0, by omega, rfl⟩
          · split
            · exact ⟨0, by omega, rfl⟩
            · split
              · exact ⟨0, by omega, rfl⟩
              · exact vtSubmitPhase_delays env _

/-- When every poll from index `i` on answers 200 (with an ordinary body)
whose status is `queued` or `running` — in any mixture and with arbitrary
other body fields — the loop runs to its attempt ceiling and returns the
still-processing report rendering the last attempt's status, having slept
the full arithmetic delay sequence. -/
theorem vtPoll_all_pending (env : VtEnv) (pu : String) :
    ∀ fuel i, 1 ≤ fuel →
      (∀ j, j < fuel → ∃ r : VtReportResp, env.pollCalls (i + j) = NetCall.resp r ∧
        r.status_code = 200 ∧ r.error_present = false ∧
        (r.attributes.status = some "queued" ∨ r.attributes.status = some "running")) →
      ∃ st, (st = "queued" ∨ st = "running") ∧
        vtPoll env pu i fuel =
          (Except.ok (vtStillProcessingMsg st pu),
           (List.range fuel).map (fun j => 5 + (i + j) * 2)) := by
  intro fuel
  induction fuel with
  | zero => intro i h; omega
  | succ n ih =>
    intro i _ hq
    obtain ⟨r, h0, h200, herr, hst⟩ := hq 0 (by omega)
    rw [Nat.add_zero] at h0
    have hb2q : ((some "queued" : Option String) == some "completed") = false := by decide
    have hb3q : ((some "queued" : Option String) == some "queued") = true := by decide
    have hb2r : ((some "running" : Option String) == some "completed") = false := by decide
    have hb3r : ((some "running" : Option String) == some "queued") = false := by decide
    have hb4r : ((some "running" : Option String) == some "running") = true := by decide
    by_cases hn : n = 0
    · subst hn
      rcases hst with hst | hst
      · refine ⟨"queued", Or.inl rfl, ?_⟩
        unfold vtPoll
        rw [h0]
        simp [h200, herr, hst, hb2q, hb3q, pyOptRepr]
        rw [show List.range 1 = [0] from by decide]
        simp
      · refine ⟨"running", Or.inr rfl, ?_⟩
        unfold vtPoll
        rw [h0]
        simp [h200, herr, hst, hb2r, hb3r, hb4r, pyOptRepr]
        rw [show List.range 1 = [0] from by decide]
        simp
    · have hq' : ∀ j, j < n → ∃ rr : VtReportResp,
          env.pollCalls (i + 1 + j) = NetCall.resp rr ∧
          rr.status_code = 200 ∧ rr.error_present = false ∧
          (rr.attributes.status = some "queued" ∨ rr.attributes.status = some "running") := by
        intro j hj
        have h := hq (j + 1) (by omega)
        rw [show i + (j + 1) = i + 1 + j by omega] at h
        exact h
      obtain ⟨st, hor, heq⟩ := ih (i + 1) (by omega) hq'
      refine ⟨st, hor, ?_⟩
      unfold vtPoll
      rw [h0]
      rcases hst with hst | hst
      · simp only [h200, herr, hst, hb2q, hb3q, Bool.true_or, if_true, Bool.false_eq_true,
          if_false, heq, beq_iff_eq, beq_self_eq_true, if_neg hn]
        rw [delays_cons_step i n]
      · simp only [h200, herr, hst, hb2r, hb3r, hb4r, Bool.false_or, if_true,
          Bool.false_eq_true, if_false, heq, beq_iff_eq, beq_self_eq_true, if_neg hn]
        rw [delays_cons_step i n]

/-- Claim C6 (confirmed): the polling loop issues at most 10 poll requests;
the j-th poll (0-based) is preceded by a wait of exactly `5 + 2 * j` time
units (a linearly increasing back-off); and when every poll reports status
`queued` or `running` (any mixture, arbitrary other body fields), exactly 10
poll calls are made — delays 5, 7, ..., 23 — and the final result is the
still-processing message (rendering one of those two pending statuses)
carrying the public report link. -/
theorem C6_poll_bounded_linear (env : VtEnv) (url pu : String) :
    ((scan_url_with_virustotal env url).2.length ≤ 10 ∧
     ∀ j, j < (scan_url_with_virustotal env url).2.length →
       (scan_url_with_virustotal env url).2.getD j 0 = 5 + 2 * j) ∧
    ((∀ i, i < 10 → ∃ r : VtReportResp, env.pollCalls i = NetCall.resp r ∧
        r.status_code = 200 ∧ r.error_present = false ∧
        (r.attributes.status = some "queued" ∨ r.attributes.status = some "running")) →
      ∃ st, (st = "queued" ∨ st = "running") ∧
        vtPoll env pu 0 10 =
          (Except.ok (vtStillProcessingMsg st pu),
           [5, 7, 9, 11, 13, 15, 17, 19, 21, 23]) ∧
        containsSubstr (vtStillProcessingMsg st pu) pu = true) := by
  constructor
  · obtain ⟨k, hk, he⟩ := vt_delays_shape env url
    rw [he]
    constructor
    · rw [List.length_map, List.length_range]
      exact hk
    · intro j hj
      rw [List.length_map, List.length_range] at hj
      rw [List.getD_eq_getElem?_getD, List.getElem?_map, List.getElem?_range hj]
      rfl
  · intro hq
    obtain ⟨st, hor, heq⟩ := vtPoll_all_pending env pu 10 0 (by omega)
      (fun j hj => by simpa using hq j (by omega))
    refine ⟨st, hor, ?_, ?_⟩
    · rw [heq]
      exact congrArg _ (by decide)
    · unfold vtStillProcessingMsg
      apply containsSubstr_append_left
      apply containsSubstr_append_right
      exact containsSubstr_self _

/-- Witness for C6: the all-queued and all-running environments both run all
10 polls and end in a still-processing report. -/
theorem C6_poll_bounded_linear_witness :
    (∃ st, (st = "queued" ∨ st = "running") ∧
      vtPoll vtEnvAllQueued "https://vt/r" 0 10 =
        (Except.ok (vtStillProcessingMsg st "https://vt/r"),
         [5, 7, 9, 11, 13, 15, 17, 19, 21, 23]) ∧
      containsSubstr (vtStillProcessingMsg st "https://vt/r") "https://vt/r" = true) ∧
    (∃ st, (st = "queued" ∨ st = "running") ∧
      vtPoll vtEnvAllRunning "https://vt/r" 0 10 =
        (Except.ok (vtStillProcessingMsg st "https://vt/r"),
         [5, 7, 9, 11, 13, 15, 17, 19, 21, 23]) ∧
      containsSubstr (vtStillProcessingMsg st "https://vt/r") "https://vt/r" = true) ∧
    (scan_url_with_virustotal vtEnvAllQueued "u").2.length ≤ 10 :=
  ⟨(C6_poll_bounded_linear vtEnvAllQueued "u" "https://vt/r").2
      (fun _ _ => ⟨⟨200, false, none, ⟨none, some "queued"⟩, ""⟩, rfl, rfl, rfl, Or.inl rfl⟩),
   (C6_poll_bounded_linear vtEnvAllRunning "u" "https://vt/r").2
      (fun _ _ => ⟨⟨200, false, none, ⟨some [("harmless", 3)], some "running"⟩, "partial body"⟩,
        rfl, rfl, rfl, Or.inr rfl⟩),
   (C6_poll_bounded_linear vtEnvAllQueued "u" "https://vt/r").1.1⟩

/-! ## Claim C8 -/

/-- Claim C8 (confirmed): on a submission response with HTTP 400, the
recognized uncanonicalizable-URL sub-error yields the terminal provider-error
message carrying the public report page link built from the content-derived
identifier; the recognized re-submission-rejected (`Wrong URL id`) sub-error
yields the terminal informational report pointing at the existing public
report page; any other 400 yields the terminal message carrying the
provider's raw message.  In each case the delay trace is empty: no poll is
made and nothing is retried. -/
theorem C8_submission_400 (env : VtEnv) (url : String) (rr : VtReportResp) (s : VtSubmitResp)
    (hkey : falsyStr env.apiKey = false)
    (hrep : env.reportCall = NetCall.resp rr)
    (hrep404 : rr.status_code = 404)
    (hsub : env.submitCall = NetCall.resp s)
    (hs400 : s.status_code = 400) :
    ((s.error_code.getD "UNKNOWN_ERROR" == "InvalidArgumentError" &&
      containsSubstr (pyLower (s.error_message.getD "Malformed URL or API error."))
        "canonicalize url") = true →
      scan_url_with_virustotal env url =
        (vtInvalidUrlMsg (VIRUSTOTAL_GUI_BASE_URL ++ get_vt_url_id url ++ "/detection"), []) ∧
      containsSubstr
        (vtInvalidUrlMsg (VIRUSTOTAL_GUI_BASE_URL ++ get_vt_url_id url ++ "/detection"))
        (VIRUSTOTAL_GUI_BASE_URL ++ get_vt_url_id url ++ "/detection") = true) ∧
    ((s.error_code.getD "UNKNOWN_ERROR" == "InvalidArgumentError" &&
      containsSubstr (pyLower (s.error_message.getD "Malformed URL or API error."))
        "canonicalize url") = false →
     (s.error_code.getD "UNKNOWN_ERROR" == "BadRequestError" &&
      containsSubstr (s.error_message.getD "Malformed URL or API error.") "Wrong URL id") = true →
      scan_url_with_virustotal env url =
        (vtCommonUrlMsg (VIRUSTOTAL_GUI_BASE_URL ++ get_vt_url_id url ++ "/detection"), []) ∧
      containsSubstr
        (vtCommonUrlMsg (VIRUSTOTAL_GUI_BASE_URL ++ get_vt_url_id url ++ "/detection"))
        (VIRUSTOTAL_GUI_BASE_URL ++ get_vt_url_id url ++ "/detection") = true) ∧
    ((s.error_code.getD "UNKNOWN_ERROR" == "InvalidArgumentError" &&
      containsSubstr (pyLower (s.error_message.getD "Malformed URL or API error."))
        "canonicalize url") = false →
     (s.error_code.getD "UNKNOWN_ERROR" == "BadRequestError" &&
      containsSubstr (s.error_message.getD "Malformed URL or API error.") "Wrong URL id") = false →
      scan_url_with_virustotal env url =
        (vtSubmitIssueMsg (s.error_message.getD "Malformed URL or API error."), []) ∧
      containsSubstr (vtSubmitIssueMsg (s.error_message.getD "Malformed URL or API error."))
        (s.error_message.getD "Malformed URL or API error.") = true) := by
  have hb1 : ((404 : Nat) == 200) = false := by decide
  have hb2 : ((404 : Nat) == 404) = true := by decide
  have hvt : scan_url_with_virustotal env url =
      (vtHandle (vtSubmitPhase env (VIRUSTOTAL_GUI_BASE_URL ++ get_vt_url_id url ++ "/detection")).1,
       (vtSubmitPhase env (VIRUSTOTAL_GUI_BASE_URL ++ get_vt_url_id url ++ "/detection")).2) := by
    unfold scan_url_with_virustotal
    rw [if_neg (by simp [hkey])]
    dsimp only
    unfold vtBody
    dsimp only
    rw [hrep]
    simp only [hrep404, hb1, hb2, Bool.false_eq_true, if_false, if_true]
  have hstart : ∀ res : Except VtExc String × List Nat,
      vtSubmitPhase env (VIRUSTOTAL_GUI_BASE_URL ++ get_vt_url_id url ++ "/detection") = res →
      scan_url_with_virustotal env url = (vtHandle res.1, res.2) := by
    intro res hres
    rw [hvt, hres]
  refine ⟨?_, ?_, ?_⟩
  · intro h1
    have hp : vtSubmitPhase env (VIRUSTOTAL_GUI_BASE_URL ++ get_vt_url_id url ++ "/detection") =
        (Except.ok (vtInvalidUrlMsg (VIRUSTOTAL_GUI_BASE_URL ++ get_vt_url_id url ++ "/detection")), []) := by
      unfold vtSubmitPhase
      rw [hsub]
      dsimp only
      rw [if_pos (by simp [hs400]), if_pos h1]
    refine ⟨hstart _ hp, ?_⟩
    unfold vtInvalidUrlMsg
    apply containsSubstr_append_left
    apply containsSubstr_append_right
    exact containsSubstr_self _
  · intro h1 h2
    have hp : vtSubmitPhase env (VIRUSTOTAL_GUI_BASE_URL ++ get_vt_url_id url ++ "/detection") =
        (Except.ok (vtCommonUrlMsg (VIRUSTOTAL_GUI_BASE_URL ++ get_vt_url_id url ++ "/detection")), []) := by
      unfold vtSubmitPhase
      rw [hsub]
      dsimp only
      rw [if_pos (by simp [hs400]), if_neg (by simp [h1]), if_pos h2]
    refine ⟨hstart _ hp, ?_⟩
    unfold vtCommonUrlMsg
    apply containsSubstr_append_left
    apply containsSubstr_append_right
    exact containsSubstr_self _
  · intro h1 h2
    have hp : vtSubmitPhase env (VIRUSTOTAL_GUI_BASE_URL ++ get_vt_url_id url ++ "/detection") =
        (Except.ok (vtSubmitIssueMsg (s.error_message.getD "Malformed URL or API error.")), []) := by
      unfold vtSubmitPhase
      rw [hsub]
      dsimp only
      rw [if_pos (by simp [hs400]), if_neg (by simp [h1]), if_neg (by simp [h2])]
    refine ⟨hstart _ hp, ?_⟩
    unfold vtSubmitIssueMsg
    apply containsSubstr_append_left
    apply containsSubstr_append_right
    exact containsSubstr_self _

/-- Witness for C8: a concrete uncanonicalizable-URL rejection. -/
theorem C8_submission_400_witness :
    scan_url_with_virustotal vtEnvCanon "http://x" =
      (vtInvalidUrlMsg (VIRUSTOTAL_GUI_BASE_URL ++ get_vt_url_id "http://x" ++ "/detection"), []) :=
  ((C8_submission_400 vtEnvCanon "http://x" ⟨404, false, none, ⟨none, none⟩, ""⟩
      ⟨400, some "InvalidArgumentError", some "Could not canonicalize URL", none, ""⟩
      rfl rfl rfl rfl rfl).1 (by decide)).1

/-! ## Claim C9 -/

/-- Claim C9 (confirmed): the verdict normalizer is total over arbitrary
attribute dictionaries — a missing `last_analysis_stats` object behaves as
all-zero counts and yields the Inconclusive report, every attribute
dictionary yields one of the three report shapes rather than an error, and a
poll that completes with no statistics at all terminates with the
Inconclusive report instead of raising. -/
theorem C9_normalizer_total (pu : String) :
    (∀ st : Option String, _process_vt_report_verdict ⟨none, st⟩ pu = vtInconclusiveMsg 0 pu) ∧
    (∀ a : VtAttributes,
      (∃ m s, _process_vt_report_verdict a pu = vtDangerMsg m s pu) ∨
      (∃ h, _process_vt_report_verdict a pu = vtSafeMsg h pu) ∨
      (∃ u, _process_vt_report_verdict a pu = vtInconclusiveMsg u pu)) ∧
    (∀ (env : VtEnv) (i fuel : Nat) (r : VtReportResp),
      env.pollCalls i = NetCall.resp r → r.status_code = 200 → r.error_present = false →
      r.attributes = ⟨none, some "completed"⟩ →
      vtPoll env pu i (fuel + 1) = (Except.ok (vtInconclusiveMsg 0 pu), [5 + i * 2])) := by
  refine ⟨fun st => rfl, ?_, ?_⟩
  · intro a
    unfold _process_vt_report_verdict
    dsimp only
    split
    · exact Or.inl ⟨_, _, rfl⟩
    · split
      · exact Or.inr (Or.inl ⟨_, rfl⟩)
      · exact Or.inr (Or.inr ⟨_, rfl⟩)
  · intro env i fuel r hp h200 herr hattr
    unfold vtPoll
    rw [hp]
    have hb1 : ((200 : Nat) == 200) = true := by decide
    have hbc : ((some "completed" : Option String) == some "completed") = true := by decide
    simp only [h200, herr, hattr, hb1, hbc, if_true, Bool.false_eq_true, if_false]
    rfl

/-- Witness for C9: the completed-with-no-statistics polling environment. -/
theorem C9_normalizer_total_witness :
    vtPoll vtEnvCompletedEmpty "L" 0 10 = (Except.ok (vtInconclusiveMsg 0 "L"), [5]) ∧
    _process_vt_report_verdict ⟨none, none⟩ "L" = vtInconclusiveMsg 0 "L" := by
  have h := C9_normalizer_total "L"
  refine ⟨?_, h.1 none⟩
  have h3 := h.2.2 vtEnvCompletedEmpty 0 9 ⟨200, false, none, ⟨none, some "completed"⟩, ""⟩
    rfl rfl rfl rfl
  simpa using h3

/-! ## Claim C10 -/

/-- Claim C10 (confirmed): a poll answering HTTP 200 with no `status` field
under `data.attributes` terminates the loop immediately on that attempt —
however many attempts remain — with the unexpected-status report (rendering
the absent status as `None`) carrying the public report link; exactly one
delay is slept on that attempt and no exception escapes. -/
theorem C10_missing_status_terminal (env : VtEnv) (pu : String) (i fuel : Nat)
    (r : VtReportResp)
    (hp : env.pollCalls i = NetCall.resp r) (h200 : r.status_code = 200)
    (herr : r.error_present = false) (hst : r.attributes.status = none) :
    vtPoll env pu i (fuel + 1) =
      (Except.ok (vtUnexpectedStatusMsg "None" pu), [5 + i * 2]) ∧
    containsSubstr (vtUnexpectedStatusMsg "None" pu) pu = true := by
  constructor
  · unfold vtPoll
    rw [hp]
    have hb1 : ((200 : Nat) == 200) = true := by decide
    have hc1 : ((none : Option String) == some "completed") = false := by decide
    have hc2 : ((none : Option String) == some "queued") = false := by decide
    have hc3 : ((none : Option String) == some "running") = false := by decide
    simp only [h200, herr, hst, hb1, hc1, hc2, hc3, if_true, Bool.false_eq_true, if_false,
      Bool.or_self, pyOptRepr]
  · unfold vtUnexpectedStatusMsg
    apply containsSubstr_append_left
    apply containsSubstr_append_right
    exact containsSubstr_self _

/-- Witness for C10: the missing-status polling environment, with all ten
attempts still available. -/
theorem C10_missing_status_terminal_witness :
    vtPoll vtEnvNoStatus "L" 0 10 =
      (Except.ok (vtUnexpectedStatusMsg "None" "L"), [5]) := by
  have h := (C10_missing_status_terminal vtEnvNoStatus "L" 0 9
    ⟨200, false, none, ⟨none, none⟩, ""⟩ rfl rfl rfl rfl).1
  simpa using h

end UrlScan
